import Mathlib

/-
Verification development for the beam-adapter block scanner
(src/beam/blockscanner.go).  The Go code is shallowly embedded: machine
integers (uint64) become Nat with explicit wrap-around where overflow can
occur, fallible calls become Except/Option, the external ledger client and
local store become explicit records of functions and state, and the
producer/consumer pipeline of BatchExtractTransaction is modelled by the
equivalent sequential fold (the spec itself notes results may be consumed
in any order; only the multiset of effects and the aggregate error are
observable).
-/

namespace BeamAdapter

/-- Modulus of Go uint64 arithmetic, 2 to the 64. -/
def W64 : Nat := 18446744073709551616

/-- Go uint64 subtraction a - b (wrapping), for a, b < 2 to the 64. -/
def sub64 (a b : Nat) : Nat := (a + (W64 - b % W64)) % W64

/-- Block of the chain: height, hash, previous-block hash
(blockscanner.go uses fields Height, Hash, PrevBlockHash of beam.Block). -/
structure Block where
  height : Nat
  hash : String
  prevBlockHash : String
deriving Repr, DecidableEq

/-- Raw ledger transaction as consumed by the scanner (fields TxID,
BlockHeight, BlockHash, Sender, Receiver, Value, Fee, CreateTime of
beam.Transaction, per their uses in blockscanner.go and the data model
of the specification). -/
structure Transaction where
  txID : String
  blockHeight : Nat
  blockHash : String
  sender : String
  receiver : String
  value : Nat
  fee : Nat
  createTime : Int
deriving Repr, DecidableEq

/-- UnscanRecord: durable retry marker (blockHeight, txID, reason). -/
structure UnscanRecord where
  blockHeight : Nat
  txID : String
  reason : String
deriving Repr, DecidableEq

/-- NewUnscanRecord constructor (beam.NewUnscanRecord). -/
def NewUnscanRecord (blockHeight : Nat) (txID reason : String) : UnscanRecord :=
  { blockHeight := blockHeight, txID := txID, reason := reason }

/-- openwallet.Coin as populated by blockscanner.go: Symbol, IsContract
(false), ContractID left at its zero value, the empty string. -/
structure Coin where
  symbol : String
  isContract : Bool
  contractID : String
deriving Repr, DecidableEq

/-- One recharge entry (the shared shape of openwallet.TxInput and
openwallet.TxOutPut as filled in by extractTxInput / extractTxOutput:
Sid, TxID, Address, Coin, Amount, BlockHash, BlockHeight, Index, CreateAt). -/
structure Recharge where
  sid : String
  txID : String
  address : String
  coin : Coin
  amount : String
  blockHash : String
  blockHeight : Nat
  index : Nat
  createAt : Int
deriving Repr, DecidableEq

/-- openwallet.Transaction as built by InitExtractResult (only the fields
the scanner writes). -/
structure OWTransaction where
  fees : String
  coin : Coin
  blockHash : String
  blockHeight : Nat
  txID : String
  decimal : Nat
  amount : String
  confirmTime : Int
  from' : List String
  to' : List String
  status : String
  reason : String
  wxID : String
deriving Repr, DecidableEq

/-- openwallet.TxExtractData: the per-subscriber record set (Transaction,
TxInputs, TxOutputs).  The Go zero value has empty slices and a nil
Transaction. -/
structure TxExtractData where
  transaction : Option OWTransaction
  txInputs : List Recharge
  txOutputs : List Recharge
deriving Repr, DecidableEq

/-- openwallet.ScanTarget as built at blockscanner.go:595-603. -/
structure ScanTarget where
  address : String
  balanceModelType : Nat
deriving Repr, DecidableEq

/-- openwallet.BalanceModelTypeAddress (opaque tag; only its identity
matters to the embedding). -/
def BalanceModelTypeAddress : Nat := 1

/-- ExtractResult of one transaction (beam.ExtractResult).  The Go map
extractData is modelled as an association list; Go map iteration order is
arbitrary, the association-list order is one admissible order. -/
structure ExtractResult where
  extractData : List (String × List TxExtractData)
  TxID : String
  BlockHeight : Nat
  Success : Bool
deriving Repr, DecidableEq

/-- Lookup in the extractData map; a missing key yields the empty list,
matching a nil Go slice. -/
def mapGet (m : List (String × List TxExtractData)) (k : String) : List TxExtractData :=
  match m.find? (fun p => p.1 == k) with
  | some p => p.2
  | none => []

/-- Go map assignment m[k] = v on the association-list model. -/
def mapSet (m : List (String × List TxExtractData)) (k : String)
    (v : List TxExtractData) : List (String × List TxExtractData) :=
  if m.any (fun p => p.1 == k) then
    m.map (fun p => if p.1 == k then (k, v) else p)
  else
    m ++ [(k, v)]

/-- Modelled from the spec: openwallet.GenTxInputSID is external library
code not under src/; the spec only requires a deterministic,
collision-resistant identifier derived from (txID, asset symbol, contract
identifier, index).  Embedded as an injective tagged concatenation. -/
def GenTxInputSID (txid symbol contractID : String) (index : Nat) : String :=
  "input_" ++ txid ++ "_" ++ symbol ++ "_" ++ contractID ++ "_" ++ toString index

/-- Modelled from the spec: openwallet.GenTxOutPutSID is external library
code not under src/; deterministic identifier from (txID, asset symbol,
contract identifier, index). -/
def GenTxOutPutSID (txid symbol contractID : String) (index : Nat) : String :=
  "output_" ++ txid ++ "_" ++ symbol ++ "_" ++ contractID ++ "_" ++ toString index

/-- Modelled from the spec: openwallet.GenTransactionWxID is external
library code not under src/; a transaction-level identifier derived
deterministically from the normalized transaction canonical fields (its
txID and coin symbol / contract identifier). -/
def GenTransactionWxID (txid symbol contractID : String) : String :=
  "wxid_" ++ txid ++ "_" ++ symbol ++ "_" ++ contractID

/-- Left-pad a digit string with zeros to the given length. -/
def padZeros (s : String) (len : Nat) : String :=
  String.mk (List.replicate (len - s.length) '0') ++ s

/-- Modelled from the spec: common.BigIntToDecimals and the decimal
String rendering are external library code not under src/; the spec
requires exact conversion of integer minor units at the asset's fixed
decimal count (value 1000 at decimal 8 renders as 0.00001000). -/
def decimalsString (v : Nat) (decimals : Nat) : String :=
  if decimals = 0 then toString v
  else toString (v / 10 ^ decimals) ++ "." ++ padZeros (toString (v % 10 ^ decimals)) decimals

/-- Wallet-manager surface consumed by the scanner: asset symbol and
fixed decimal count (wm.Symbol(), wm.Decimal()). -/
structure WalletManager where
  symbol : String
  decimal : Nat

/-- The scanner state that extraction and the scan loop read: the wallet
manager, the tail-rescan depth, and the subscription-resolution callback
(bs.ScanTargetFunc of the BlockScannerBase). -/
structure BEAMBlockScanner where
  wm : WalletManager
  RescanLastBlockCount : Nat
  scanTargetFunc : ScanTarget → String × Bool

/-- External ledger client interface (wallet RPC) as consumed by the
scanner: block by height, transaction list by height, current max height. -/
structure Ledger where
  getBlockByHeight : Nat → Except String Block
  getTransactionsByHeight : Nat → Except String (List Transaction)
  getBlockHeight : Except String Nat

/-- Local persistent store: the scan cursor (GetLocalNewBlock /
SaveLocalNewBlock), locally saved blocks (SaveLocalBlock / GetLocalBlock)
and the unscanned-record queue. -/
structure LocalStore where
  cursor : Nat × String
  blocks : List Block
  unscanRecords : List UnscanRecord
deriving Repr, DecidableEq

/-- wm.GetLocalBlock: lookup of a locally saved block by height. -/
def GetLocalBlock (store : LocalStore) (height : Nat) : Option Block :=
  store.blocks.find? (fun b => b.height == height)

/-- wm.SaveLocalNewBlock: persist the scan cursor. -/
def SaveLocalNewBlock (store : LocalStore) (height : Nat) (hash : String) : LocalStore :=
  { store with cursor := (height, hash) }

/-- wm.SaveLocalBlock: persist a block (later saves shadow older ones). -/
def SaveLocalBlock (store : LocalStore) (block : Block) : LocalStore :=
  { store with blocks := block :: store.blocks }

/-- bs.SaveUnscanRecord: append a retry marker. -/
def SaveUnscanRecord (store : LocalStore) (r : UnscanRecord) : LocalStore :=
  { store with unscanRecords := store.unscanRecords ++ [r] }

/-- wm.DeleteUnscanRecord: drop all retry markers of one height. -/
def DeleteUnscanRecord (store : LocalStore) (height : Nat) : LocalStore :=
  { store with unscanRecords := store.unscanRecords.filter (fun r => r.blockHeight != height) }

/-- extractTxInput (blockscanner.go:680-713): appends the value debit and
then the fee debit (a field-for-field copy of the first entry with only
Amount replaced, so it shares the same Sid and Index). -/
def extractTxInput (bs : BEAMBlockScanner) (tx : Transaction)
    (txExtractData : TxExtractData) : TxExtractData :=
  let coin : Coin := { symbol := bs.wm.symbol, isContract := false, contractID := "" }
  let amount := decimalsString tx.value bs.wm.decimal
  let txInput : Recharge := {
    sid := GenTxInputSID tx.txID bs.wm.symbol coin.contractID 0
    txID := tx.txID
    address := tx.sender
    coin := coin
    amount := amount
    blockHash := tx.blockHash
    blockHeight := tx.blockHeight
    index := 0
    createAt := tx.createTime }
  let fees := decimalsString tx.fee bs.wm.decimal
  let feeCharge : Recharge := { txInput with amount := fees }
  { txExtractData with txInputs := txExtractData.txInputs ++ [txInput, feeCharge] }

/-- extractTxOutput (blockscanner.go:716-740): appends the single
receiver credit. -/
def extractTxOutput (bs : BEAMBlockScanner) (tx : Transaction)
    (txExtractData : TxExtractData) : TxExtractData :=
  let coin : Coin := { symbol := bs.wm.symbol, isContract := false, contractID := "" }
  let amount := decimalsString tx.value bs.wm.decimal
  let txOutput : Recharge := {
    sid := GenTxOutPutSID tx.txID bs.wm.symbol coin.contractID 0
    txID := tx.txID
    address := tx.receiver
    coin := coin
    amount := amount
    blockHash := tx.blockHash
    blockHeight := tx.blockHeight
    index := 0
    createAt := tx.createTime }
  { txExtractData with txOutputs := txExtractData.txOutputs ++ [txOutput] }

/-- InitExtractResult (blockscanner.go:626-677).  operate = 0: both
sides, 1: input only, 2: output only. -/
def InitExtractResult (bs : BEAMBlockScanner) (tx : Transaction) (sourceKey : String)
    (result : ExtractResult) (operate : Int) : ExtractResult :=
  let txExtractDataArray := mapGet result.extractData sourceKey
  let coin : Coin := { symbol := bs.wm.symbol, isContract := false, contractID := "" }
  let amount := decimalsString tx.value bs.wm.decimal
  let transx : OWTransaction := {
    fees := "0"
    coin := coin
    blockHash := tx.blockHash
    blockHeight := tx.blockHeight
    txID := tx.txID
    decimal := bs.wm.decimal
    amount := amount
    confirmTime := tx.createTime
    from' := [tx.sender ++ ":" ++ amount]
    to' := [tx.receiver ++ ":" ++ amount]
    status := "1"
    reason := ""
    wxID := "" }
  let wxID := GenTransactionWxID transx.txID transx.coin.symbol transx.coin.contractID
  let transx := { transx with wxID := wxID }
  let d0 : TxExtractData := { transaction := some transx, txInputs := [], txOutputs := [] }
  let d1 :=
    if operate = 0 then extractTxOutput bs tx (extractTxInput bs tx d0)
    else if operate = 1 then extractTxInput bs tx d0
    else if operate = 2 then extractTxOutput bs tx d0
    else d0
  { result with extractData := mapSet result.extractData sourceKey (txExtractDataArray ++ [d1]) }

/-- ExtractTransaction (blockscanner.go:568-623).  The pair hp is the
(blockHeight, blockHash) after the best-effort fill-in lookup performed
when the given hash is empty. -/
def ExtractTransaction (bs : BEAMBlockScanner) (ledger : Ledger) (blockHeight : Nat)
    (blockHash : String) (trx : Transaction)
    (scanTargetFunc : ScanTarget → String × Bool) : ExtractResult :=
  let result : ExtractResult := {
    BlockHeight := blockHeight
    TxID := trx.txID
    extractData := []
    Success := false }
  let hp : Nat × String :=
    if blockHash.length = 0 then
      match ledger.getBlockByHeight trx.blockHeight with
      | .ok block => (block.height, block.hash)
      | .error _ => (blockHeight, blockHash)
    else (blockHeight, blockHash)
  let trx := { trx with blockHeight := hp.1, blockHash := hp.2 }
  let p1 := scanTargetFunc { address := trx.sender, balanceModelType := BalanceModelTypeAddress }
  let p2 := scanTargetFunc { address := trx.receiver, balanceModelType := BalanceModelTypeAddress }
  let accountId := p1.1
  let ok1 := p1.2
  let accountId2 := p2.1
  let ok2 := p2.2
  let result :=
    if accountId = accountId2 ∧ accountId.length > 0 ∧ accountId2.length > 0 then
      InitExtractResult bs trx accountId result 0
    else
      let result := if ok1 then InitExtractResult bs trx accountId result 1 else result
      if ok2 then InitExtractResult bs trx accountId2 result 2 else result
  { result with Success := true }

/-- A registered observer, reduced to the delivery callback the scanner
invokes (openwallet.BlockScanNotificationObject.BlockExtractDataNotify);
a some result is the delivery error. -/
structure Observer where
  BlockExtractDataNotify : String → TxExtractData → Option String

/-- Block header delivered by newBlockNotify (openwallet.BlockHeader with
the Fork flag and the symbol set by block.BlockHeader(symbol)). -/
structure BlockHeader where
  height : Nat
  hash : String
  fork : Bool
  symbol : String
deriving Repr, DecidableEq

/-- newBlockNotify (blockscanner.go:428-432): build a header from the
block, set the fork flag, hand it to the observers; the embedding records
the delivered headers in order. -/
def newBlockNotify (bs : BEAMBlockScanner) (notified : List BlockHeader)
    (block : Block) (isFork : Bool) : List BlockHeader :=
  notified ++ [{ height := block.height, hash := block.hash, fork := isFork, symbol := bs.wm.symbol }]

/-- newExtractDataNotify (blockscanner.go:744-762): for every observer
and every (key, record) pair attempt delivery; each failed delivery
appends a retry marker with reason ExtractData Notify failed.  The Go
function ends with return nil unconditionally, hence the none component. -/
def newExtractDataNotify (bs : BEAMBlockScanner) (observers : List Observer)
    (store : LocalStore) (height : Nat)
    (extractData : List (String × List TxExtractData)) : LocalStore × Option String :=
  let store := observers.foldl (fun st o =>
    extractData.foldl (fun st kv =>
      kv.2.foldl (fun st data =>
        match o.BlockExtractDataNotify kv.1 data with
        | none => st
        | some _ =>
          SaveUnscanRecord st (NewUnscanRecord height "" "ExtractData Notify failed.")) st) st) store
  (store, none)

/-- One saveWork consumption step (blockscanner.go:466-493): deliver a
successful result (counting a failure when the notify call errors) or
record an unscanned block and count a failure. -/
def saveWorkStep (bs : BEAMBlockScanner) (observers : List Observer) (height : Nat)
    (acc : LocalStore × Nat) (gets : ExtractResult) : LocalStore × Nat :=
  if gets.Success then
    match newExtractDataNotify bs observers acc.1 height gets.extractData with
    | (st, some _) => (st, acc.2 + 1)
    | (st, none) => (st, acc.2)
  else
    (SaveUnscanRecord acc.1 (NewUnscanRecord height "" ""), acc.2 + 1)

/-- BatchExtractTransaction (blockscanner.go:436-529).  The bounded
producer/consumer pipeline is modelled by the equivalent sequential fold:
every transaction is extracted, every result is consumed exactly once by
saveWork, and the aggregate error is returned when the failed counter is
positive.  The transaction-list fetch error is returned unchanged. -/
def BatchExtractTransaction (bs : BEAMBlockScanner) (ledger : Ledger)
    (observers : List Observer) (store : LocalStore) (blockHeight : Nat)
    (blockHash : String) : LocalStore × Option String :=
  match ledger.getTransactionsByHeight blockHeight with
  | .error e => (store, some e)
  | .ok txs =>
    if txs.length = 0 then (store, none)
    else
      let results := txs.map (fun tx =>
        ExtractTransaction bs ledger blockHeight blockHash tx bs.scanTargetFunc)
      let sw := results.foldl (saveWorkStep bs observers blockHeight) (store, 0)
      if sw.2 > 0 then (sw.1, some "block scanner saveWork failed") else (sw.1, none)

/-- Working state of one ScanBlockTask invocation: the loop-local height
and hash, the persistent store, and the block headers delivered so far. -/
structure ScanState where
  currentHeight : Nat
  currentHash : String
  store : LocalStore
  notified : List BlockHeader
deriving Repr, DecidableEq

/-- Outcome of one iteration of the scan loop: continue, break out of the
loop (to the tail rescan), or return from the whole task early. -/
inductive LoopOutcome where
  | cont (s : ScanState)
  | brk (s : ScanState)
  | ret (s : ScanState)
deriving Repr, DecidableEq

/-- The state carried by any outcome. -/
def LoopOutcome.state : LoopOutcome → ScanState
  | .cont s => s
  | .brk s => s
  | .ret s => s

/-- One iteration of the scan loop of ScanBlockTask (blockscanner.go:211-323),
with bs.Scanning held true.  Heights are uint64; currentHeight + 1 cannot
wrap because it is bounded by the fetched max height, itself below 2 to
the 64, while the rewind by two at line 266 uses wrapping subtraction. -/
def scanStep (bs : BEAMBlockScanner) (ledger : Ledger) (observers : List Observer)
    (s : ScanState) : LoopOutcome :=
  match ledger.getBlockHeight with
  | .error _ => .brk s
  | .ok maxHeight =>
    if s.currentHeight ≥ maxHeight then
      .brk s
    else
      let currentHeight := s.currentHeight + 1
      match ledger.getBlockByHeight currentHeight with
      | .error e =>
        let store := SaveUnscanRecord s.store (NewUnscanRecord currentHeight "" e)
        .cont { s with currentHeight := currentHeight, store := store }
      | .ok block =>
        if s.currentHash ≠ block.prevBlockHash then
          let forkBlock := GetLocalBlock s.store (currentHeight - 1)
          let store := DeleteUnscanRecord s.store (currentHeight - 1)
          let rewound := sub64 currentHeight 2
          let rewound := if rewound ≤ 0 then 1 else rewound
          let anchorRes : Except String Block :=
            match GetLocalBlock store rewound with
            | some b => .ok b
            | none => ledger.getBlockByHeight rewound
          match anchorRes with
          | .error _ => .brk { s with currentHeight := rewound, store := store }
          | .ok localBlock =>
            let store := SaveLocalNewBlock store localBlock.height localBlock.hash
            let notified :=
              match forkBlock with
              | some fb => newBlockNotify bs s.notified fb true
              | none => s.notified
            .cont { currentHeight := rewound, currentHash := localBlock.hash,
                    store := store, notified := notified }
        else
          match BatchExtractTransaction bs ledger observers s.store block.height block.hash with
          | (store, some _) => .ret { s with currentHeight := currentHeight, store := store }
          | (store, none) =>
            let store := SaveLocalNewBlock store currentHeight block.hash
            let store := SaveLocalBlock store block
            let notified := newBlockNotify bs s.notified block false
            .cont { currentHeight := currentHeight, currentHash := block.hash,
                    store := store, notified := notified }

/-- The scan loop run to completion on fuel; the Bool is true when the
loop left through break (and ScanBlockTask would go on to the tail
rescan), false on an early return or fuel exhaustion. -/
def scanLoop (bs : BEAMBlockScanner) (ledger : Ledger) (observers : List Observer) :
    Nat → ScanState → ScanState × Bool
  | 0, s => (s, false)
  | fuel + 1, s =>
    match scanStep bs ledger observers s with
    | .cont s' => scanLoop bs ledger observers fuel s'
    | .brk s' => (s', true)
    | .ret s' => (s', false)

/-- The sequence of heights visited by the tail-rescan loop of
ScanBlockTask (blockscanner.go:326-328), written in Go as a for loop with
i starting at currentHeight - bs.RescanLastBlockCount (uint64 wrapping
subtraction) and running while i < currentHeight.  When the wrapped start
is at or above currentHeight the loop body never runs, which the
truncated Nat subtraction in the length reproduces. -/
def tailRescanHeights (currentHeight rescanLastBlockCount : Nat) : List Nat :=
  List.range' (sub64 currentHeight rescanLastBlockCount)
    (currentHeight - sub64 currentHeight rescanLastBlockCount)

/-- SetRescanBlockHeight (blockscanner.go:120-133).  The parameter is a
Go uint64: the decrement wraps at zero and the following guard compares
an unsigned value against zero, so it can never fire. -/
def SetRescanBlockHeight (bs : BEAMBlockScanner) (ledger : Ledger) (store : LocalStore)
    (height : Nat) : Except String LocalStore :=
  let height := sub64 height 1
  if height < 0 then
    .error "block height to rescan must greater than 0."
  else
    match ledger.getBlockByHeight height with
    | .error e => .error e
    | .ok block => .ok (SaveLocalNewBlock store height block.hash)

/-! Helper lemmas shared by several claims. -/

/-- A block found by GetLocalBlock carries the queried height. -/
theorem GetLocalBlock_height {store : LocalStore} {h : Nat} {b : Block}
    (hb : GetLocalBlock store h = some b) : b.height = h := by
  unfold GetLocalBlock at hb
  have := List.find?_some hb
  simpa using this

/-- Go uint64 subtraction agrees with truncated subtraction when no wrap
occurs. -/
theorem sub64_eq_sub {a b : Nat} (hba : b ≤ a) (ha : a < W64) : sub64 a b = a - b := by
  unfold sub64 W64 at *
  omega

/-! Claim theorems. -/

/-- C3: with an asset decimal count of 8, a transaction with value 1000
and fee 10 extracts an input-side record set whose amount strings are
0.00001000 and 0.00000010, and an output-side record set with the single
amount string 0.00001000. -/
theorem extraction_amount_strings_value1000_fee10
    (bs : BEAMBlockScanner) (tx : Transaction) (d : TxExtractData)
    (h8 : bs.wm.decimal = 8) (hv : tx.value = 1000) (hf : tx.fee = 10)
    (hdi : d.txInputs = []) (hdo : d.txOutputs = []) :
    (extractTxInput bs tx d).txInputs.map Recharge.amount = ["0.00001000", "0.00000010"] ∧
    (extractTxOutput bs tx d).txOutputs.map Recharge.amount = ["0.00001000"] := by
  constructor
  · simp only [extractTxInput, hdi, hv, hf, h8, List.nil_append, List.map_cons, List.map_nil]
    rfl
  · simp only [extractTxOutput, hdo, hv, h8, List.nil_append, List.map_cons, List.map_nil]
    rfl

def c3bs : BEAMBlockScanner :=
  { wm := { symbol := "BEAM", decimal := 8 }, RescanLastBlockCount := 0,
    scanTargetFunc := fun _ => ("", false) }

def c3tx : Transaction :=
  { txID := "tx3", blockHeight := 1, blockHash := "bh", sender := "s", receiver := "r",
    value := 1000, fee := 10, createTime := 0 }

def c3d : TxExtractData := { transaction := none, txInputs := [], txOutputs := [] }

/-- Witness for C3 at a concrete scanner and transaction. -/
theorem extraction_amount_strings_value1000_fee10_witness :
    (extractTxInput c3bs c3tx c3d).txInputs.map Recharge.amount = ["0.00001000", "0.00000010"] ∧
    (extractTxOutput c3bs c3tx c3d).txOutputs.map Recharge.amount = ["0.00001000"] :=
  extraction_amount_strings_value1000_fee10 c3bs c3tx c3d rfl rfl rfl rfl rfl

/-- C6: the input side always appends exactly two debits, the transfer
value and then the fee (the value entry keeps the full value, the fee is
a separate entry), leaving outputs untouched; the output side always
appends exactly one credit equal to the transfer value, leaving inputs
untouched; on the fresh record set of InitExtractResult this yields
exactly two input entries and one output entry. -/
theorem extract_sides_entry_shape (bs : BEAMBlockScanner) (tx : Transaction)
    (d : TxExtractData) :
    (extractTxInput bs tx d).txInputs.map Recharge.amount
      = d.txInputs.map Recharge.amount ++
        [decimalsString tx.value bs.wm.decimal, decimalsString tx.fee bs.wm.decimal] ∧
    (extractTxInput bs tx d).txOutputs = d.txOutputs ∧
    (extractTxOutput bs tx d).txOutputs.map Recharge.amount
      = d.txOutputs.map Recharge.amount ++ [decimalsString tx.value bs.wm.decimal] ∧
    (extractTxOutput bs tx d).txInputs = d.txInputs ∧
    (extractTxInput bs tx { transaction := none, txInputs := [], txOutputs := [] }).txInputs.length = 2 ∧
    (extractTxOutput bs tx { transaction := none, txInputs := [], txOutputs := [] }).txOutputs.length = 1 := by
  refine ⟨?_, rfl, ?_, rfl, rfl, rfl⟩
  · simp [extractTxInput]
  · simp [extractTxOutput]

/-- C8: evaluation of the tail-rescan height sequence at the failing
input: with final height 2 and rescan depth 5 the wrapped lower bound is
above the final height, so no height is rescanned, in particular the
claimed clamped rescan of height 1 does not happen; in range (height 10,
depth 3) the loop visits exactly the 3 heights below the final height. -/
theorem tailRescan_underflow_skips_all :
    tailRescanHeights 2 5 = [] ∧
    tailRescanHeights 2 5 ≠ [1] ∧
    tailRescanHeights 10 3 = [7, 8, 9] := by
  refine ⟨by decide, by decide, by decide⟩

/-- C10: SetRescanBlockHeight at height 0 never takes the validation
error branch: the unsigned decrement wraps to 2^64 - 1 and the result is
exactly the one determined by the block lookup at 2^64 - 1; whenever the
ledger client does not itself produce the validation message, the
validation error is never returned. -/
theorem SetRescanBlockHeight_zero_wraps (bs : BEAMBlockScanner) (ledger : Ledger)
    (store : LocalStore) :
    (SetRescanBlockHeight bs ledger store 0 =
      match ledger.getBlockByHeight (W64 - 1) with
      | .error e => .error e
      | .ok block => .ok (SaveLocalNewBlock store (W64 - 1) block.hash)) ∧
    ((∀ h e, ledger.getBlockByHeight h = .error e →
        e ≠ "block height to rescan must greater than 0.") →
      SetRescanBlockHeight bs ledger store 0 ≠
        .error "block height to rescan must greater than 0.") := by
  have h01 : sub64 0 1 = W64 - 1 := by decide
  constructor
  · unfold SetRescanBlockHeight
    rw [h01]
    simp
  · intro hled
    unfold SetRescanBlockHeight
    rw [h01]
    simp only [Nat.not_lt_zero, if_neg (by omega : ¬ W64 - 1 < 0)]
    cases heq : ledger.getBlockByHeight (W64 - 1) with
    | error e =>
      simpa using fun hcontra => hled _ _ heq hcontra
    | ok block => simp

def c10bs : BEAMBlockScanner :=
  { wm := { symbol := "BEAM", decimal := 8 }, RescanLastBlockCount := 0,
    scanTargetFunc := fun _ => ("", false) }

def c10ledger : Ledger :=
  { getBlockByHeight := fun h => .ok { height := h, hash := "wh", prevBlockHash := "wp" },
    getTransactionsByHeight := fun _ => .ok [],
    getBlockHeight := .ok 0 }

def c10store : LocalStore := { cursor := (0, ""), blocks := [], unscanRecords := [] }

/-- Witness for C10: with a ledger that answers every height, rescanning
to height 0 saves the cursor at 2^64 - 1 and does not produce the
validation error. -/
theorem SetRescanBlockHeight_zero_wraps_witness :
    SetRescanBlockHeight c10bs c10ledger c10store 0 =
      .ok (SaveLocalNewBlock c10store (W64 - 1) "wh") ∧
    SetRescanBlockHeight c10bs c10ledger c10store 0 ≠
      .error "block height to rescan must greater than 0." := by
  have h := SetRescanBlockHeight_zero_wraps c10bs c10ledger c10store
  refine ⟨?_, h.2 ?_⟩
  · rw [h.1]
    rfl
  · intro h e heq
    exact absurd heq (by simp [c10ledger])

/-- C4: when the resolver maps sender and receiver to the same non-empty
subscriber key, ExtractTransaction produces exactly one record set, under
that key only, and it carries both the input side (two entries) and the
output side (one entry). -/
theorem same_key_single_combined_record
    (bs : BEAMBlockScanner) (ledger : Ledger) (blockHeight : Nat) (blockHash : String)
    (trx : Transaction) (f : ScanTarget → String × Bool) (k : String) (b1 b2 : Bool)
    (hs : f { address := trx.sender, balanceModelType := BalanceModelTypeAddress } = (k, b1))
    (hr : f { address := trx.receiver, balanceModelType := BalanceModelTypeAddress } = (k, b2))
    (hk : 0 < k.length) :
    (ExtractTransaction bs ledger blockHeight blockHash trx f).extractData.map Prod.fst = [k] ∧
    (mapGet (ExtractTransaction bs ledger blockHeight blockHash trx f).extractData k).map
        (fun d => (d.txInputs.length, d.txOutputs.length)) = [(2, 1)] := by
  simp only [ExtractTransaction, hs, hr]
  simp [InitExtractResult, mapSet, mapGet, hk, extractTxInput, extractTxOutput]

def c4bs : BEAMBlockScanner :=
  { wm := { symbol := "BEAM", decimal := 8 }, RescanLastBlockCount := 0,
    scanTargetFunc := fun _ => ("", false) }

def c4ledger : Ledger :=
  { getBlockByHeight := fun _ => .error "nf",
    getTransactionsByHeight := fun _ => .ok [],
    getBlockHeight := .ok 0 }

def c4tx : Transaction :=
  { txID := "tx4", blockHeight := 3, blockHash := "bh4", sender := "alice", receiver := "bob",
    value := 700, fee := 5, createTime := 0 }

def c4resolver : ScanTarget → String × Bool := fun _ => ("acct", true)

/-- Witness for C4: a self-account transfer yields one combined record
set under the shared key. -/
theorem same_key_single_combined_record_witness :
    (ExtractTransaction c4bs c4ledger 3 "bh4" c4tx c4resolver).extractData.map Prod.fst
      = ["acct"] ∧
    (mapGet (ExtractTransaction c4bs c4ledger 3 "bh4" c4tx c4resolver).extractData "acct").map
        (fun d => (d.txInputs.length, d.txOutputs.length)) = [(2, 1)] :=
  same_key_single_combined_record c4bs c4ledger 3 "bh4" c4tx c4resolver "acct" true true
    rfl rfl (by decide)

/-- C5: when the resolver maps sender and receiver to different keys, the
input-only record set appears under the sender key exactly when the
sender matched and the output-only record set appears under the receiver
key exactly when the receiver matched, and both sides carry the same
transfer amount (the input side additionally carrying the fee entry). -/
theorem diff_keys_independent_sides
    (bs : BEAMBlockScanner) (ledger : Ledger) (blockHeight : Nat) (blockHash : String)
    (trx : Transaction) (f : ScanTarget → String × Bool) (k1 k2 : String) (b1 b2 : Bool)
    (hs : f { address := trx.sender, balanceModelType := BalanceModelTypeAddress } = (k1, b1))
    (hr : f { address := trx.receiver, balanceModelType := BalanceModelTypeAddress } = (k2, b2))
    (hne : k1 ≠ k2) :
    (ExtractTransaction bs ledger blockHeight blockHash trx f).extractData.map Prod.fst
      = (cond b1 [k1] []) ++ (cond b2 [k2] []) ∧
    (mapGet (ExtractTransaction bs ledger blockHeight blockHash trx f).extractData k1).map
        (fun d => (d.txInputs.map Recharge.amount, d.txOutputs.map Recharge.amount))
      = cond b1 [([decimalsString trx.value bs.wm.decimal,
                   decimalsString trx.fee bs.wm.decimal], [])] [] ∧
    (mapGet (ExtractTransaction bs ledger blockHeight blockHash trx f).extractData k2).map
        (fun d => (d.txInputs.map Recharge.amount, d.txOutputs.map Recharge.amount))
      = cond b2 [([], [decimalsString trx.value bs.wm.decimal])] [] := by
  cases b1 <;> cases b2 <;>
    · simp only [ExtractTransaction, hs, hr]
      simp [InitExtractResult, mapSet, mapGet, hne, Ne.symm hne,
        extractTxInput, extractTxOutput]

def c5bs : BEAMBlockScanner :=
  { wm := { symbol := "BEAM", decimal := 8 }, RescanLastBlockCount := 0,
    scanTargetFunc := fun _ => ("", false) }

def c5ledger : Ledger :=
  { getBlockByHeight := fun _ => .error "nf",
    getTransactionsByHeight := fun _ => .ok [],
    getBlockHeight := .ok 0 }

def c5tx : Transaction :=
  { txID := "tx5", blockHeight := 4, blockHash := "bh5", sender := "alice", receiver := "bob",
    value := 1000, fee := 10, createTime := 0 }

def c5resolver : ScanTarget → String × Bool := fun t =>
  if t.address = "alice" then ("acctA", true) else ("acctB", true)

/-- Witness for C5: sender and receiver subscribed under different keys
produce an input-only and an output-only record set with the same
transfer amount. -/
theorem diff_keys_independent_sides_witness :
    (ExtractTransaction c5bs c5ledger 4 "bh5" c5tx c5resolver).extractData.map Prod.fst
      = (cond true ["acctA"] []) ++ (cond true ["acctB"] []) ∧
    (mapGet (ExtractTransaction c5bs c5ledger 4 "bh5" c5tx c5resolver).extractData "acctA").map
        (fun d => (d.txInputs.map Recharge.amount, d.txOutputs.map Recharge.amount))
      = cond true [([decimalsString c5tx.value c5bs.wm.decimal,
                     decimalsString c5tx.fee c5bs.wm.decimal], [])] [] ∧
    (mapGet (ExtractTransaction c5bs c5ledger 4 "bh5" c5tx c5resolver).extractData "acctB").map
        (fun d => (d.txInputs.map Recharge.amount, d.txOutputs.map Recharge.amount))
      = cond true [([], [decimalsString c5tx.value c5bs.wm.decimal])] [] :=
  diff_keys_independent_sides c5bs c5ledger 4 "bh5" c5tx c5resolver "acctA" "acctB" true true
    rfl rfl (by decide)

/-- C7: extraction is idempotent, two runs on the same transaction and
resolver agree exactly, and the record identifiers are the deterministic
functions of (txID, symbol, contract identifier, index): both input
entries carry the input SID at index 0 (the fee entry is a copy of the
value entry, sharing its SID), the output entry carries the output SID at
index 0, and the transaction-level WxID is derived from txID, symbol and
contract identifier. -/
theorem extraction_identifiers_idempotent
    (bs : BEAMBlockScanner) (ledger : Ledger) (blockHeight : Nat) (blockHash : String)
    (trx : Transaction) (f : ScanTarget → String × Bool) (k : String) (b1 b2 : Bool)
    (hs : f { address := trx.sender, balanceModelType := BalanceModelTypeAddress } = (k, b1))
    (hr : f { address := trx.receiver, balanceModelType := BalanceModelTypeAddress } = (k, b2))
    (hk : 0 < k.length) :
    ExtractTransaction bs ledger blockHeight blockHash trx f
      = ExtractTransaction bs ledger blockHeight blockHash trx f ∧
    (mapGet (ExtractTransaction bs ledger blockHeight blockHash trx f).extractData k).map
        (fun d => d.txInputs.map Recharge.sid)
      = [[GenTxInputSID trx.txID bs.wm.symbol "" 0, GenTxInputSID trx.txID bs.wm.symbol "" 0]] ∧
    (mapGet (ExtractTransaction bs ledger blockHeight blockHash trx f).extractData k).map
        (fun d => d.txOutputs.map Recharge.sid)
      = [[GenTxOutPutSID trx.txID bs.wm.symbol "" 0]] ∧
    (mapGet (ExtractTransaction bs ledger blockHeight blockHash trx f).extractData k).map
        (fun d => d.transaction.map OWTransaction.wxID)
      = [some (GenTransactionWxID trx.txID bs.wm.symbol "")] := by
  refine ⟨rfl, ?_, ?_, ?_⟩ <;>
    · simp only [ExtractTransaction, hs, hr]
      simp [InitExtractResult, mapSet, mapGet, hk, extractTxInput, extractTxOutput]

def c7bs : BEAMBlockScanner :=
  { wm := { symbol := "BEAM", decimal := 8 }, RescanLastBlockCount := 0,
    scanTargetFunc := fun _ => ("", false) }

def c7ledger : Ledger :=
  { getBlockByHeight := fun _ => .error "nf",
    getTransactionsByHeight := fun _ => .ok [],
    getBlockHeight := .ok 0 }

def c7tx : Transaction :=
  { txID := "tx7", blockHeight := 9, blockHash := "bh7", sender := "carol", receiver := "dan",
    value := 42, fee := 1, createTime := 0 }

def c7resolver : ScanTarget → String × Bool := fun _ => ("acct7", true)

/-- Witness for C7 at a concrete transaction and resolver. -/
theorem extraction_identifiers_idempotent_witness :
    ExtractTransaction c7bs c7ledger 9 "bh7" c7tx c7resolver
      = ExtractTransaction c7bs c7ledger 9 "bh7" c7tx c7resolver ∧
    (mapGet (ExtractTransaction c7bs c7ledger 9 "bh7" c7tx c7resolver).extractData "acct7").map
        (fun d => d.txInputs.map Recharge.sid)
      = [[GenTxInputSID "tx7" "BEAM" "" 0, GenTxInputSID "tx7" "BEAM" "" 0]] ∧
    (mapGet (ExtractTransaction c7bs c7ledger 9 "bh7" c7tx c7resolver).extractData "acct7").map
        (fun d => d.txOutputs.map Recharge.sid)
      = [[GenTxOutPutSID "tx7" "BEAM" "" 0]] ∧
    (mapGet (ExtractTransaction c7bs c7ledger 9 "bh7" c7tx c7resolver).extractData "acct7").map
        (fun d => d.transaction.map OWTransaction.wxID)
      = [some (GenTransactionWxID "tx7" "BEAM" "")] :=
  extraction_identifiers_idempotent c7bs c7ledger 9 "bh7" c7tx c7resolver "acct7" true true
    rfl rfl (by decide)

/-- The saveWork fold never increments the failure counter on a batch of
successful results, because newExtractDataNotify always returns nil. -/
theorem saveWork_failed_stays
    (bs : BEAMBlockScanner) (observers : List Observer) (height : Nat) :
    ∀ (results : List ExtractResult) (st : LocalStore) (n : Nat),
      (∀ r ∈ results, r.Success = true) →
      (results.foldl (saveWorkStep bs observers height) (st, n)).2 = n := by
  intro results
  induction results with
  | nil => intro st n _; rfl
  | cons r rs ih =>
    intro st n hall
    have hr : r.Success = true := hall r (by simp)
    have hstep : saveWorkStep bs observers height (st, n) r
        = ((newExtractDataNotify bs observers st height r.extractData).1, n) := by
      simp [saveWorkStep, hr, newExtractDataNotify]
    rw [List.foldl_cons, hstep]
    exact ih _ _ (fun x hx => hall x (List.mem_cons_of_mem r hx))

/-- C9: ExtractTransaction marks every result successful regardless of
the resolver outcome, newExtractDataNotify returns no error even when an
observer delivery fails, so the saveWork failure counter stays zero and
BatchExtractTransaction returns an error exactly for the transaction-list
fetch error (the aggregate saveWork-failed branch is unreachable). -/
theorem batch_error_only_on_tx_fetch
    (bs : BEAMBlockScanner) (ledger : Ledger) (observers : List Observer)
    (store : LocalStore) (blockHeight : Nat) (blockHash : String) :
    ((BatchExtractTransaction bs ledger observers store blockHeight blockHash).2 =
      match ledger.getTransactionsByHeight blockHeight with
      | .error e => some e
      | .ok _ => none) ∧
    (∀ (bh : Nat) (bhash : String) (trx : Transaction) (g : ScanTarget → String × Bool),
      (ExtractTransaction bs ledger bh bhash trx g).Success = true) ∧
    (∀ (st : LocalStore) (h : Nat) (ed : List (String × List TxExtractData)),
      (newExtractDataNotify bs observers st h ed).2 = none) := by
  refine ⟨?_, fun bh bhash trx g => rfl, fun st h ed => rfl⟩
  unfold BatchExtractTransaction
  cases htx : ledger.getTransactionsByHeight blockHeight with
  | error e => rfl
  | ok txs =>
    by_cases hlen : txs.length = 0
    · simp [hlen]
    · have hzero := saveWork_failed_stays bs observers blockHeight
        (txs.map fun tx => ExtractTransaction bs ledger blockHeight blockHash tx bs.scanTargetFunc)
        store 0 (by intro r hrr; simp only [List.mem_map] at hrr; obtain ⟨tx, _, hre⟩ := hrr; rw [← hre]; rfl)
      simp [hlen, hzero]

/-- C1 (amended): when the block fetched at height H = currentHeight + 1
has a prevHash that differs from the locally remembered hash of H - 1,
and the block at the rewound height max(H - 2, 1) is present in the local
store, fork recovery continues the loop from that height with the cursor
re-anchored at (max(H - 2, 1), hash of that block), the unscanned records
of H - 1 deleted, and exactly one fork-flagged notification for height
H - 1 appended when (and only when) a local copy of H - 1 existed. -/
theorem fork_recovery_rewinds_two
    (bs : BEAMBlockScanner) (ledger : Ledger) (observers : List Observer)
    (s : ScanState) (maxHeight : Nat) (block anchor : Block)
    (hmax : ledger.getBlockHeight = .ok maxHeight)
    (hlt : s.currentHeight < maxHeight)
    (hblk : ledger.getBlockByHeight (s.currentHeight + 1) = .ok block)
    (hfork : s.currentHash ≠ block.prevBlockHash)
    (h1 : 1 ≤ s.currentHeight)
    (hW : s.currentHeight + 1 < W64)
    (hanchor : GetLocalBlock s.store (max (s.currentHeight - 1) 1) = some anchor) :
    scanStep bs ledger observers s = .cont {
      currentHeight := max (s.currentHeight - 1) 1,
      currentHash := anchor.hash,
      store := { cursor := (max (s.currentHeight - 1) 1, anchor.hash),
                 blocks := s.store.blocks,
                 unscanRecords :=
                   s.store.unscanRecords.filter (fun r => r.blockHeight != s.currentHeight) },
      notified := s.notified ++
        (match GetLocalBlock s.store s.currentHeight with
         | some fb => [{ height := s.currentHeight, hash := fb.hash, fork := true,
                         symbol := bs.wm.symbol }]
         | none => []) } := by
  have hr2 : sub64 (s.currentHeight + 1) 2 = s.currentHeight - 1 :=
    sub64_eq_sub (by omega) hW
  have hclamp : (if s.currentHeight - 1 ≤ 0 then 1 else s.currentHeight - 1)
      = max (s.currentHeight - 1) 1 := by
    rcases Nat.eq_zero_or_pos (s.currentHeight - 1) with h0 | hpos
    · simp [h0]
    · rw [if_neg (by omega), Nat.max_eq_left hpos]
  have hah : anchor.height = max (s.currentHeight - 1) 1 := GetLocalBlock_height hanchor
  unfold scanStep
  rw [hmax]
  dsimp only
  rw [if_neg (by omega : ¬ s.currentHeight ≥ maxHeight), hblk]
  dsimp only
  rw [if_pos hfork]
  simp only [Nat.add_sub_cancel, hr2, hclamp]
  have hdel : GetLocalBlock (DeleteUnscanRecord s.store s.currentHeight)
      (max (s.currentHeight - 1) 1) = GetLocalBlock s.store (max (s.currentHeight - 1) 1) := rfl
  rw [hdel, hanchor]
  dsimp only
  rcases hfb : GetLocalBlock s.store s.currentHeight with _ | fb
  · simp [hfb, DeleteUnscanRecord, SaveLocalNewBlock, newBlockNotify, hah]
  · have hfbh : fb.height = s.currentHeight := GetLocalBlock_height hfb
    simp [hfb, hfbh, DeleteUnscanRecord, SaveLocalNewBlock, newBlockNotify, hah]

def c1bs : BEAMBlockScanner :=
  { wm := { symbol := "BEAM", decimal := 8 }, RescanLastBlockCount := 0,
    scanTargetFunc := fun _ => ("", false) }

def c1ledger : Ledger :=
  { getBlockByHeight := fun h =>
      if h = 10 then .ok { height := 10, hash := "h10m", prevBlockHash := "h9m" }
      else .error "not found",
    getTransactionsByHeight := fun _ => .ok [],
    getBlockHeight := .ok 100 }

def c1store : LocalStore :=
  { cursor := (9, "h9"),
    blocks := [{ height := 9, hash := "h9", prevBlockHash := "h8" },
               { height := 8, hash := "h8", prevBlockHash := "h7" },
               { height := 7, hash := "h7", prevBlockHash := "h6" }],
    unscanRecords := [] }

def c1s : ScanState :=
  { currentHeight := 9, currentHash := "h9", store := c1store, notified := [] }

/-- Counterexample to C1 as stated: a fork detected at fetched height
H = 10 with the local chain holding heights 7, 8, 9; the code re-anchors
the cursor at (8, hash-of-8) = (H - 2, ...), not at (7, hash-of-7) =
(H - 3, ...) as the claim requires (H - 3 = 7 ≥ 1 and a local block 7
with hash h7 exists). -/
theorem fork_recovery_claim_counterexample :
    c1ledger.getBlockByHeight 10 = .ok { height := 10, hash := "h10m", prevBlockHash := "h9m" } ∧
    c1s.currentHash ≠ "h9m" ∧
    GetLocalBlock c1s.store 7 = some { height := 7, hash := "h7", prevBlockHash := "h6" } ∧
    (scanStep c1bs c1ledger [] c1s).state.store.cursor = (8, "h8") ∧
    (scanStep c1bs c1ledger [] c1s).state.store.cursor ≠ (7, "h7") := by
  refine ⟨rfl, by decide, by decide, by decide, by decide⟩

/-- Witness for the amended C1 at the concrete fork scenario: the cursor
lands on (8, h8) and exactly one fork-flagged header for height 9 is
delivered, because a local copy of block 9 existed. -/
theorem fork_recovery_rewinds_two_witness :
    scanStep c1bs c1ledger [] c1s = .cont {
      currentHeight := 8,
      currentHash := "h8",
      store := { cursor := (8, "h8"), blocks := c1store.blocks, unscanRecords := [] },
      notified := [{ height := 9, hash := "h9", fork := true, symbol := "BEAM" }] } := by
  have h := fork_recovery_rewinds_two c1bs c1ledger [] c1s 100
    { height := 10, hash := "h10m", prevBlockHash := "h9m" }
    { height := 8, hash := "h8", prevBlockHash := "h7" }
    rfl (by decide) rfl (by decide) (by decide) (by decide) (by decide)
  simpa using h

/-- C2 (amended): within a scan iteration below the tip, a failure to
fetch the block itself is not fatal: the loop persists an UnscanRecord
for that height with an empty txID and the error text, leaves the cursor
untouched and continues with the next height; but a failure to fetch the
transaction list of a successfully fetched, non-forked block makes the
whole scan cycle return early, with no UnscanRecord persisted and the
cursor untouched. -/
theorem fetch_failure_handling
    (bs : BEAMBlockScanner) (ledger : Ledger) (observers : List Observer)
    (s : ScanState) (maxHeight : Nat)
    (hmax : ledger.getBlockHeight = .ok maxHeight)
    (hlt : s.currentHeight < maxHeight) :
    (∀ e, ledger.getBlockByHeight (s.currentHeight + 1) = .error e →
      scanStep bs ledger observers s = .cont { s with
        currentHeight := s.currentHeight + 1,
        store := SaveUnscanRecord s.store (NewUnscanRecord (s.currentHeight + 1) "" e) }) ∧
    (∀ (block : Block) e, ledger.getBlockByHeight (s.currentHeight + 1) = .ok block →
      s.currentHash = block.prevBlockHash →
      ledger.getTransactionsByHeight block.height = .error e →
      scanStep bs ledger observers s = .ret { s with currentHeight := s.currentHeight + 1 }) := by
  constructor
  · intro e herr
    unfold scanStep
    rw [hmax]
    dsimp only
    rw [if_neg (by omega : ¬ s.currentHeight ≥ maxHeight), herr]
  · intro block e hok hhash htx
    unfold scanStep
    rw [hmax]
    dsimp only
    rw [if_neg (by omega : ¬ s.currentHeight ≥ maxHeight), hok]
    dsimp only
    rw [if_neg (not_not_intro hhash)]
    unfold BatchExtractTransaction
    rw [htx]

def c2bs : BEAMBlockScanner :=
  { wm := { symbol := "BEAM", decimal := 8 }, RescanLastBlockCount := 0,
    scanTargetFunc := fun _ => ("", false) }

def c2ledger : Ledger :=
  { getBlockByHeight := fun h =>
      if h = 6 then .ok { height := 6, hash := "H6", prevBlockHash := "h5" }
      else .error "nf",
    getTransactionsByHeight := fun _ => .error "rpc down",
    getBlockHeight := .ok 100 }

def c2wledger : Ledger :=
  { getBlockByHeight := fun _ => .error "boom",
    getTransactionsByHeight := fun _ => .ok [],
    getBlockHeight := .ok 100 }

def c2s : ScanState :=
  { currentHeight := 5, currentHash := "h5",
    store := { cursor := (5, "h5"), blocks := [], unscanRecords := [] },
    notified := [] }

/-- Counterexample to C2 as stated: at height 6 the block fetch succeeds
but the transaction-list fetch fails; the scan cycle returns early (the
loop does not continue) and no UnscanRecord is persisted for height 6. -/
theorem fetch_failure_claim_counterexample :
    c2ledger.getTransactionsByHeight 6 = .error "rpc down" ∧
    scanStep c2bs c2ledger [] c2s = .ret { c2s with currentHeight := 6 } ∧
    (scanStep c2bs c2ledger [] c2s).state.store.unscanRecords = [] := by
  refine ⟨rfl, by decide, by decide⟩

/-- Witness for the amended C2: a block-fetch failure is recorded and
skipped, while a transaction-list fetch failure aborts the cycle. -/
theorem fetch_failure_handling_witness :
    scanStep c2bs c2wledger [] c2s = .cont { c2s with
      currentHeight := 6,
      store := SaveUnscanRecord c2s.store (NewUnscanRecord 6 "" "boom") } ∧
    scanStep c2bs c2ledger [] c2s = .ret { c2s with currentHeight := 6 } :=
  ⟨(fetch_failure_handling c2bs c2wledger [] c2s 100 rfl (by decide)).1 "boom" rfl,
   (fetch_failure_handling c2bs c2ledger [] c2s 100 rfl (by decide)).2
     { height := 6, hash := "H6", prevBlockHash := "h5" } "rpc down" rfl rfl rfl⟩

end BeamAdapter
